import Mathlib

/-!
Verification development for the MyMDM server (src/be/main.py and
src/be/src/apns_client.py), a shallow embedding of the in-memory device
registry (`enrolled_devices`), the per-device command queue
(`pending_commands`), the check-in handler (`mdm_checkin`), the command
channel handler (`mdm_command`), the management-API enqueue path
(`send_command`) and the lost-mode endpoints.

Python dicts are modelled as association lists with Python dict update
semantics (`aset` overwrites an existing key in place, else appends;
`aerase` models `del`).  Timestamps (`datetime.utcnow()`) are abstracted
to a `now : Nat` argument, `uuid.uuid4()` to a counter-based supply in
the state, and the external APNs transport to an explicit `PushResult`
oracle argument (exception raised, or a response with a success flag),
matching the try/except in `send_apns_notification`.
-/

/-- Association list lookup, modelling Python `d.get(k)` / `d[k]`. -/
def alookup {α : Type} (k : String) : List (String × α) → Option α
  | [] => none
  | (k1, v) :: rest => if k1 = k then some v else alookup k rest

/-- Association list update, modelling Python `d[k] = v`: overwrite the
existing binding in place, else append at the end (dict insertion order). -/
def aset {α : Type} (k : String) (v : α) : List (String × α) → List (String × α)
  | [] => [(k, v)]
  | (k1, v1) :: rest => if k1 = k then (k, v) :: rest else (k1, v1) :: aset k v rest

/-- Association list removal, modelling Python `del d[k]` (guarded by a
membership test in the source, so removal of an absent key is a no-op). -/
def aerase {α : Type} (k : String) : List (String × α) → List (String × α)
  | [] => []
  | (k1, v1) :: rest => if k1 = k then rest else (k1, v1) :: aerase k rest

/-- The per-device record stored in `enrolled_devices` (main.py lines
120-128); the lost-mode message/phone keys are optional because
`enable_lost_mode` adds them and `disable_lost_mode` pops them. -/
structure Device where
  udid : String
  token : Option String
  push_magic : Option String
  unlock_token : Option String
  enrolled_at : Nat
  last_seen : Nat
  lost_mode_enabled : Bool
  lost_mode_message : Option String
  lost_mode_phone : Option String
deriving Repr, DecidableEq

/-- An opaque command body (the `command: dict` of the management API):
a request type plus opaque key/value arguments. -/
structure CommandBody where
  requestType : String
  args : List (String × String)
deriving Repr, DecidableEq

/-- A queued MDM command as built in `send_command` (main.py lines
204-207): a generated CommandUUID plus the opaque body. -/
structure MDMCommand where
  commandUUID : String
  command : CommandBody
deriving Repr, DecidableEq

/-- The whole mutable server state: the two module-level dicts of
main.py, plus a counter supplying `uuid.uuid4()` results and a count of
calls made to the external push transport. -/
structure ServerState where
  enrolled_devices : List (String × Device)
  pending_commands : List (String × List MDMCommand)
  uuidCounter : Nat
  pushCount : Nat
deriving Repr, DecidableEq

/-- The fresh-identifier supply abstracting `uuid.uuid4()`. -/
def freshUuid (n : Nat) : String := "cmd-" ++ toString n

/-- The device's pending queue as the code reads it: the list under the
device key, empty when the key is absent. -/
def pendingOf (s : ServerState) (udid : String) : List MDMCommand :=
  (alookup udid s.pending_commands).getD []

/-- A parsed check-in message (MessageType plus the fields the handler
reads); `unknown` stands for any other MessageType. -/
inductive CheckinMessage where
  | authenticate (udid : String)
  | tokenUpdate (udid : String) (token : Option String)
      (pushMagic : Option String) (unlockToken : Option String)
  | checkOut (udid : String)
  | unknown
deriving Repr, DecidableEq

/-- The check-in handler `mdm_checkin` (main.py lines 98-140), after
plist parsing.  Returns the HTTP status code and the new state.
`Authenticate` only logs; `TokenUpdate` assigns a whole fresh record to
`enrolled_devices[udid]`; `CheckOut` deletes the registry entry if
present; anything else is a 400 with no state change. -/
def mdm_checkin (s : ServerState) (msg : CheckinMessage) (now : Nat) :
    Nat × ServerState :=
  match msg with
  | .authenticate _ => (200, s)
  | .tokenUpdate udid token pushMagic unlockToken =>
      let d : Device :=
        { udid := udid
          token := token
          push_magic := pushMagic
          unlock_token := unlockToken
          enrolled_at := now
          last_seen := now
          lost_mode_enabled := false
          lost_mode_message := none
          lost_mode_phone := none }
      (200, { s with enrolled_devices := aset udid d s.enrolled_devices })
  | .checkOut udid =>
      (200, { s with enrolled_devices := aerase udid s.enrolled_devices })
  | .unknown => (400, s)

/-- The response of a command-channel exchange: either a plist body
carrying one command, or an empty 200. -/
inductive CommandResponse where
  | commandBody (c : MDMCommand)
  | noContent
deriving Repr, DecidableEq

/-- The last-seen touch at the top of `mdm_command` (main.py lines
156-157): update the field only when the device is registered. -/
def touch_last_seen (s : ServerState) (udid : String) (now : Nat) : ServerState :=
  match alookup udid s.enrolled_devices with
  | none => s
  | some d =>
      let d1 := { d with last_seen := now }
      { s with enrolled_devices := aset udid d1 s.enrolled_devices }

/-- The pending-command block closing `mdm_command` (main.py lines
169-176): when the device key is present with a non-empty list, pop the
head and return it as the response body, else an empty 200. -/
def deliver_pending (s1 : ServerState) (udid : String) :
    CommandResponse × ServerState :=
  match alookup udid s1.pending_commands with
  | some (c :: rest) =>
      (.commandBody c, { s1 with pending_commands := aset udid rest s1.pending_commands })
  | _ => (.noContent, s1)

/-- The command channel handler `mdm_command` (main.py lines 143-176),
after plist parsing.  It touches last-seen for a registered device; the
Status / CommandUUID fields are only logged by the source (lines
159-167), so they do not influence the result; then the pending-command
block runs. -/
def mdm_command (s : ServerState) (udid : String)
    (status commandUUID : Option String) (now : Nat) :
    CommandResponse × ServerState :=
  deliver_pending (touch_last_seen s udid now) udid

/-- Outcome of the external APNs transport, as observed inside
`send_apns_notification`: the awaited calls raise, or a response arrives
with `is_successful` true or false. -/
inductive PushResult where
  | exn
  | response (isSuccessful : Bool)
deriving Repr, DecidableEq

/-- `send_apns_notification` (apns_client.py lines 29-55): any exception
is caught and yields `False`; otherwise the response's success flag is
returned. -/
def send_apns_notification (transport : PushResult) : Bool :=
  match transport with
  | .exn => false
  | .response b => b

/-- The JSON body returned by `send_command` on success (main.py lines
222-226). -/
structure SendResult where
  status : String
  command_uuid : String
  apns_sent : Bool
deriving Repr, DecidableEq

/-- An HTTPException is modelled as an error carrying the status code and
the server state at the moment of the raise (mutations already performed
before the raise are kept, as in Python). -/
abbrev MDMResult (α : Type) := Except (Nat × ServerState) (α × ServerState)

/-- The state after an operation, whether it returned or raised. -/
def stateAfter {α : Type} : MDMResult α → ServerState
  | .ok (_, s) => s
  | .error (_, s) => s

/-- True when the operation raised an HTTPException. -/
def isErr {α : Type} : MDMResult α → Bool
  | .ok _ => false
  | .error _ => true

/-- The management-API enqueue path `send_command` (main.py lines
195-226): 404 if the device is not registered (before any uuid is
generated or any mutation); otherwise generate a CommandUUID, append the
command at the tail of the device's pending list (creating the key if
absent), call the push transport, and return the queued result with the
push outcome as `apns_sent`. -/
def send_command (s : ServerState) (udid : String) (command : CommandBody)
    (transport : PushResult) : MDMResult SendResult :=
  match alookup udid s.enrolled_devices with
  | none => .error (404, s)
  | some _device =>
    let command_uuid := freshUuid s.uuidCounter
    let s1 := { s with uuidCounter := s.uuidCounter + 1 }
    let cmd : MDMCommand := { commandUUID := command_uuid, command := command }
    let queue := (alookup udid s1.pending_commands).getD []
    let s2 := { s1 with pending_commands := aset udid (queue ++ [cmd]) s1.pending_commands }
    let push_result := send_apns_notification transport
    let s3 := { s2 with pushCount := s2.pushCount + 1 }
    .ok ({ status := "queued", command_uuid := command_uuid, apns_sent := push_result }, s3)

/-- `enable_lost_mode` (main.py lines 275-303): 404 if unregistered;
otherwise set the lost-mode fields on the registry entry and delegate to
`send_command` with an EnableLostMode body. -/
def enable_lost_mode (s : ServerState) (udid message phone_number : String)
    (footnote : Option String) (transport : PushResult) : MDMResult SendResult :=
  match alookup udid s.enrolled_devices with
  | none => .error (404, s)
  | some d =>
    let command : CommandBody :=
      { requestType := "EnableLostMode"
        args := [("Message", message), ("PhoneNumber", phone_number)] ++
          (match footnote with | some f => [("Footnote", f)] | none => []) }
    let d1 := { d with
      lost_mode_enabled := true
      lost_mode_message := some message
      lost_mode_phone := some phone_number }
    let s1 := { s with enrolled_devices := aset udid d1 s.enrolled_devices }
    send_command s1 udid command transport

/-- `disable_lost_mode` (main.py lines 306-327): 404 if unregistered;
400 if the lost-mode flag is falsy, raised before any mutation;
otherwise clear the lost-mode fields and delegate to `send_command` with
a DisableLostMode body. -/
def disable_lost_mode (s : ServerState) (udid : String)
    (transport : PushResult) : MDMResult SendResult :=
  match alookup udid s.enrolled_devices with
  | none => .error (404, s)
  | some d =>
    if d.lost_mode_enabled = false then .error (400, s)
    else
      let command : CommandBody := { requestType := "DisableLostMode", args := [] }
      let d1 := { d with
        lost_mode_enabled := false
        lost_mode_message := none
        lost_mode_phone := none }
      let s1 := { s with enrolled_devices := aset udid d1 s.enrolled_devices }
      send_command s1 udid command transport

/-- `unenroll_device` (main.py lines 361-375): 404 if unregistered, else
enqueue a RemoveProfile command via `send_command`. -/
def unenroll_device (s : ServerState) (udid : String)
    (transport : PushResult) : MDMResult String :=
  match alookup udid s.enrolled_devices with
  | none => .error (404, s)
  | some _ =>
    match send_command s udid
        { requestType := "RemoveProfile", args := [("Identifier", "com.yourorg.mdm")] }
        transport with
    | .ok (_, s1) => .ok ("unenrollment_initiated", s1)
    | .error e => .error e

/-- The value carried by a successful operation, if any. -/
def okResult {α : Type} : MDMResult α → Option α
  | .ok (r, _) => some r
  | .error _ => none

/-- Iterate `send_command` over a list of command bodies for one device
(the shape of a sequence of management-API enqueue calls; the push
transport outcome does not influence queue contents). -/
def enqueueAll (d : String) : List CommandBody → ServerState → ServerState
  | [], s => s
  | b :: rest, s => enqueueAll d rest (stateAfter (send_command s d b (.response true)))

/-- Iterate `n` command-channel exchanges (carrying no status) for one
device, collecting the responses in order. -/
def deliverAll (d : String) (now : Nat) : Nat → ServerState → List CommandResponse × ServerState
  | 0, s => ([], s)
  | n + 1, s =>
    let p := mdm_command s d none none now
    let q := deliverAll d now n p.2
    (p.1 :: q.1, q.2)

/-- The queued records that a run of `send_command` calls starting at
uuid-counter `n` produces from a list of bodies. -/
def mkCmds : Nat → List CommandBody → List MDMCommand
  | _, [] => []
  | n, b :: rest => { commandUUID := freshUuid n, command := b } :: mkCmds (n + 1) rest

/-- One externally triggered operation on the server: the complete set of
state-mutating entry points of main.py (the remaining endpoints are
read-only or thin wrappers delegating to `send_command`). -/
inductive Op where
  | checkin (msg : CheckinMessage) (now : Nat)
  | command (udid : String) (status commandUUID : Option String) (now : Nat)
  | send (udid : String) (command : CommandBody) (transport : PushResult)
  | enableLost (udid message phone : String) (footnote : Option String) (transport : PushResult)
  | disableLost (udid : String) (transport : PushResult)
  | unenroll (udid : String) (transport : PushResult)
deriving Repr, DecidableEq

/-- Whether an operation is a TokenUpdate check-in for the given device. -/
def isTokenUpdateFor (udid : String) : Op → Bool
  | .checkin (.tokenUpdate u _ _ _) _ => decide (u = udid)
  | _ => false

/-- The state transition performed by one operation. -/
def step (s : ServerState) : Op → ServerState
  | .checkin msg now => (mdm_checkin s msg now).2
  | .command u st cu now => (mdm_command s u st cu now).2
  | .send u b t => stateAfter (send_command s u b t)
  | .enableLost u m p f t => stateAfter (enable_lost_mode s u m p f t)
  | .disableLost u t => stateAfter (disable_lost_mode s u t)
  | .unenroll u t => stateAfter (unenroll_device s u t)

/-- Run a sequence of operations from a starting state. -/
def run (s : ServerState) : List Op → ServerState
  | [] => s
  | op :: rest => run (step s op) rest

/-- The server state at process start: both module-level dicts empty. -/
def initialState : ServerState :=
  { enrolled_devices := [], pending_commands := [], uuidCounter := 0, pushCount := 0 }

/-- Well-formedness of a Python-dict model: keys are distinct (every
state reachable from `initialState` satisfies this). -/
abbrev keysNodup {α : Type} (l : List (String × α)) : Prop :=
  (l.map Prod.fst).Nodup

/-! ### Concrete fixtures used in counterexamples and witnesses -/

/-- A registered device with lost mode off. -/
def dev0 : Device :=
  { udid := "d1"
    token := some "aa11"
    push_magic := some "magic1"
    unlock_token := none
    enrolled_at := 0
    last_seen := 0
    lost_mode_enabled := false
    lost_mode_message := none
    lost_mode_phone := none }

/-- A registered device with lost mode on and an early enrollment time. -/
def devLost : Device :=
  { udid := "d2"
    token := some "bb22"
    push_magic := some "magic2"
    unlock_token := none
    enrolled_at := 5
    last_seen := 5
    lost_mode_enabled := true
    lost_mode_message := some "lost"
    lost_mode_phone := some "555-0100"
    }

/-- Two distinct queued commands. -/
def cA : MDMCommand :=
  { commandUUID := "cmd-0", command := { requestType := "DeviceLock", args := [] } }

/-- Second fixture command, distinct from `cA`. -/
def cB : MDMCommand :=
  { commandUUID := "cmd-1", command := { requestType := "DeviceInformation", args := [] } }

/-- A state with device d1 registered and commands cA, cB queued for it. -/
def s0 : ServerState :=
  { enrolled_devices := [("d1", dev0)]
    pending_commands := [("d1", [cA, cB])]
    uuidCounter := 2
    pushCount := 2 }

/-- A state with the lost-mode device d2 registered and no queue. -/
def sLost : ServerState :=
  { enrolled_devices := [("d2", devLost)]
    pending_commands := []
    uuidCounter := 0
    pushCount := 0 }

/-- A state with device d1 registered and an empty queue. -/
def sReg : ServerState :=
  { enrolled_devices := [("d1", dev0)]
    pending_commands := []
    uuidCounter := 0
    pushCount := 0 }

/-- The state of `s0` after one delivery exchange (cA handed out). -/
def sDel : ServerState := (mdm_command s0 "d1" none none 1).2

/-- The state of `s0` after a CheckOut for d1. -/
def sOut : ServerState := (mdm_checkin s0 (.checkOut "d1") 1).2

/-- The registry record that a TokenUpdate for d2 at time 9 with token
cc33 and magic magic3 writes. -/
def devNew : Device :=
  { udid := "d2"
    token := some "cc33"
    push_magic := some "magic3"
    unlock_token := none
    enrolled_at := 9
    last_seen := 9
    lost_mode_enabled := false
    lost_mode_message := none
    lost_mode_phone := none }

/-- Fixture command bodies for enqueue sequences. -/
def bodyX : CommandBody := { requestType := "DeviceLock", args := [] }

/-- Second fixture command body, distinct from `bodyX`. -/
def bodyY : CommandBody := { requestType := "InstallProfile", args := [] }

/-! ### Basic lemmas about the association-list operations -/

theorem alookup_aset {α : Type} (u k : String) (v : α) (l : List (String × α)) :
    alookup k (aset u v l) = if u = k then some v else alookup k l := by
  induction l with
  | nil => simp [aset, alookup]
  | cons hd tl ih =>
    obtain ⟨k1, v1⟩ := hd
    by_cases h1 : k1 = u
    · subst h1
      by_cases h2 : k1 = k
      · subst h2
        simp [aset, alookup]
      · simp [aset, alookup, h2]
    · by_cases h2 : k1 = k
      · subst h2
        have hu : ¬ (u = k1) := fun h => h1 h.symm
        simp [aset, alookup, h1, hu]
      · simp [aset, alookup, h1, h2, ih]

theorem alookup_aerase_isSome {α : Type} (u k : String) (l : List (String × α))
    (h : (alookup k (aerase u l)).isSome = true) :
    (alookup k l).isSome = true := by
  induction l with
  | nil => simp [aerase, alookup] at h
  | cons hd tl ih =>
    obtain ⟨k1, v1⟩ := hd
    by_cases h1 : k1 = u
    · subst h1
      simp only [aerase, if_pos rfl] at h
      by_cases h2 : k1 = k
      · simp [alookup, h2]
      · simpa [alookup, h2] using h
    · simp only [aerase, if_neg h1] at h
      by_cases h2 : k1 = k
      · simp [alookup, h2]
      · simp only [alookup, if_neg h2] at h ⊢
        exact ih h

theorem alookup_aerase_nodup {α : Type} (u : String) (l : List (String × α))
    (hnd : (l.map Prod.fst).Nodup) : alookup u (aerase u l) = none := by
  induction l with
  | nil => simp [aerase, alookup]
  | cons hd tl ih =>
    obtain ⟨k1, v1⟩ := hd
    simp only [List.map_cons, List.nodup_cons] at hnd
    by_cases h1 : k1 = u
    · subst h1
      simp only [aerase, if_pos rfl]
      cases hx : alookup k1 tl with
      | none => exact hx
      | some v =>
        exfalso
        apply hnd.1
        clear ih hnd
        induction tl with
        | nil => simp [alookup] at hx
        | cons hd2 tl2 ih2 =>
          obtain ⟨k2, v2⟩ := hd2
          by_cases h2 : k2 = k1
          · simp [h2]
          · simp only [alookup, if_neg h2] at hx
            simp [ih2 hx]
    · simp only [aerase, if_neg h1, alookup, if_neg h1]
      exact ih hnd.2

theorem pendingOf_eq_cons (s : ServerState) (d : String) (c : MDMCommand)
    (rest : List MDMCommand) (h : pendingOf s d = c :: rest) :
    alookup d s.pending_commands = some (c :: rest) := by
  unfold pendingOf at h
  cases hx : alookup d s.pending_commands with
  | none => rw [hx] at h; simp at h
  | some l => rw [hx] at h; simp at h; rw [h]

theorem touch_pending (s : ServerState) (udid : String) (now : Nat) :
    (touch_last_seen s udid now).pending_commands = s.pending_commands := by
  unfold touch_last_seen
  cases alookup udid s.enrolled_devices <;> rfl

theorem touch_uuid (s : ServerState) (udid : String) (now : Nat) :
    (touch_last_seen s udid now).uuidCounter = s.uuidCounter := by
  unfold touch_last_seen
  cases alookup udid s.enrolled_devices <;> rfl

theorem touch_push (s : ServerState) (udid : String) (now : Nat) :
    (touch_last_seen s udid now).pushCount = s.pushCount := by
  unfold touch_last_seen
  cases alookup udid s.enrolled_devices <;> rfl

theorem touch_not_enrolled (s : ServerState) (udid : String) (now : Nat)
    (h : alookup udid s.enrolled_devices = none) :
    touch_last_seen s udid now = s := by
  unfold touch_last_seen
  rw [h]

/-! ### Structural lemmas about the command channel handler -/

theorem deliver_pending_enrolled (s1 : ServerState) (d : String) :
    (deliver_pending s1 d).2.enrolled_devices = s1.enrolled_devices := by
  unfold deliver_pending
  split <;> rfl

theorem mdm_command_enrolled (s : ServerState) (d : String) (st cu : Option String) (now : Nat) :
    (mdm_command s d st cu now).2.enrolled_devices =
      (touch_last_seen s d now).enrolled_devices := by
  unfold mdm_command
  exact deliver_pending_enrolled _ _

theorem deliver_pending_pop (s1 : ServerState) (d : String) (c : MDMCommand)
    (rest : List MDMCommand) (hl : alookup d s1.pending_commands = some (c :: rest)) :
    deliver_pending s1 d =
      (CommandResponse.commandBody c,
        { s1 with pending_commands := aset d rest s1.pending_commands }) := by
  simp [deliver_pending, hl]

theorem deliver_pending_noWork (s1 : ServerState) (d : String)
    (h : (alookup d s1.pending_commands).getD [] = []) :
    deliver_pending s1 d = (CommandResponse.noContent, s1) := by
  unfold deliver_pending
  cases hx : alookup d s1.pending_commands with
  | none => rfl
  | some l =>
    rw [hx] at h
    simp only [Option.getD_some] at h
    subst h
    rfl

theorem mdm_command_pop (s : ServerState) (d : String) (st cu : Option String) (now : Nat)
    (c : MDMCommand) (rest : List MDMCommand) (h : pendingOf s d = c :: rest) :
    (mdm_command s d st cu now).1 = CommandResponse.commandBody c ∧
      pendingOf (mdm_command s d st cu now).2 d = rest := by
  have hl : alookup d s.pending_commands = some (c :: rest) := pendingOf_eq_cons s d c rest h
  have hl1 : alookup d (touch_last_seen s d now).pending_commands = some (c :: rest) := by
    rw [touch_pending]
    exact hl
  have hd := deliver_pending_pop (touch_last_seen s d now) d c rest hl1
  unfold mdm_command
  rw [hd]
  refine ⟨rfl, ?_⟩
  simp [pendingOf, alookup_aset]

theorem mdm_command_empty (s : ServerState) (d : String) (st cu : Option String) (now : Nat)
    (h : pendingOf s d = []) :
    (mdm_command s d st cu now).1 = CommandResponse.noContent ∧
      (mdm_command s d st cu now).2 = touch_last_seen s d now := by
  unfold pendingOf at h
  have h1 : (alookup d (touch_last_seen s d now).pending_commands).getD [] = [] := by
    rw [touch_pending]
    exact h
  unfold mdm_command
  rw [deliver_pending_noWork _ _ h1]
  exact ⟨rfl, rfl⟩

/-! ### Structural lemmas about the enqueue path -/

theorem send_command_ok (s : ServerState) (d : String) (b : CommandBody) (t : PushResult)
    (dev : Device) (h : alookup d s.enrolled_devices = some dev) :
    send_command s d b t = .ok
      ({ status := "queued"
         command_uuid := freshUuid s.uuidCounter
         apns_sent := send_apns_notification t },
       { enrolled_devices := s.enrolled_devices
         pending_commands := aset d
           (pendingOf s d ++ [{ commandUUID := freshUuid s.uuidCounter, command := b }])
           s.pending_commands
         uuidCounter := s.uuidCounter + 1
         pushCount := s.pushCount + 1 }) := by
  simp [send_command, h, pendingOf]

theorem enqueueAll_spec (d : String) (bs : List CommandBody) : ∀ s : ServerState,
    (alookup d s.enrolled_devices).isSome = true →
    (enqueueAll d bs s).enrolled_devices = s.enrolled_devices ∧
      pendingOf (enqueueAll d bs s) d = pendingOf s d ++ mkCmds s.uuidCounter bs := by
  induction bs with
  | nil =>
    intro s _
    simp [enqueueAll, mkCmds]
  | cons b rest ih =>
    intro s h
    obtain ⟨dev, hdev⟩ := Option.isSome_iff_exists.mp h
    have hstep := send_command_ok s d b (.response true) dev hdev
    have hs1 : stateAfter (send_command s d b (.response true)) =
        { enrolled_devices := s.enrolled_devices
          pending_commands := aset d
            (pendingOf s d ++ [{ commandUUID := freshUuid s.uuidCounter, command := b }])
            s.pending_commands
          uuidCounter := s.uuidCounter + 1
          pushCount := s.pushCount + 1 } := by
      rw [hstep]
      rfl
    have hreg1 : (alookup d (stateAfter (send_command s d b (.response true))).enrolled_devices).isSome
        = true := by
      rw [hs1]
      simpa using h
    have hmain := ih (stateAfter (send_command s d b (.response true))) hreg1
    have hall : enqueueAll d (b :: rest) s =
        enqueueAll d rest (stateAfter (send_command s d b (.response true))) := rfl
    constructor
    · rw [hall, hmain.1, hs1]
    · rw [hall, hmain.2, hs1]
      simp [pendingOf, alookup_aset, mkCmds]

theorem mkCmds_length (n : Nat) (bs : List CommandBody) :
    (mkCmds n bs).length = bs.length := by
  induction bs generalizing n with
  | nil => rfl
  | cons b rest ih => simp [mkCmds, ih]

theorem mkCmds_bodies (n : Nat) (bs : List CommandBody) :
    (mkCmds n bs).map MDMCommand.command = bs := by
  induction bs generalizing n with
  | nil => rfl
  | cons b rest ih => simp [mkCmds, ih]

theorem deliverAll_spec (d : String) (now : Nat) (l : List MDMCommand) : ∀ s : ServerState,
    pendingOf s d = l →
    (deliverAll d now l.length s).1 = l.map CommandResponse.commandBody := by
  induction l with
  | nil =>
    intro s _
    simp [deliverAll]
  | cons c rest ih =>
    intro s h
    have hp := mdm_command_pop s d none none now c rest h
    simp only [deliverAll, List.length_cons, List.map_cons]
    rw [hp.1, ih _ hp.2]

/-! ### Claim C1 -/

/-- Claim C1, as stated, is false on the code: with cA and cB queued for
d1 and no status report in between, the first command-channel exchange
returns cA but the second returns cB, not the identical command — the
queue advances because `mdm_command` pops the head on every exchange. -/
theorem C1_counterexample :
    (mdm_command s0 "d1" none none 1).1 = CommandResponse.commandBody cA ∧
    (mdm_command (mdm_command s0 "d1" none none 1).2 "d1" none none 2).1 =
      CommandResponse.commandBody cB ∧
    cA ≠ cB := by decide

/-- Claim C1 amended: two command-channel exchanges in a row with no
intervening status report return the first and then the second pending
command — each exchange removes the head of the queue, so the in-flight
command is never redelivered and the queue always advances. -/
theorem C1_queue_advances (s : ServerState) (d : String) (n1 n2 : Nat)
    (c1 c2 : MDMCommand) (rest : List MDMCommand)
    (h : pendingOf s d = c1 :: c2 :: rest) :
    (mdm_command s d none none n1).1 = CommandResponse.commandBody c1 ∧
    (mdm_command (mdm_command s d none none n1).2 d none none n2).1 =
      CommandResponse.commandBody c2 ∧
    pendingOf (mdm_command (mdm_command s d none none n1).2 d none none n2).2 d = rest := by
  have h1 := mdm_command_pop s d none none n1 c1 (c2 :: rest) h
  have h2 := mdm_command_pop _ d none none n2 c2 rest h1.2
  exact ⟨h1.1, h2.1, h2.2⟩

/-- Witness for C1_queue_advances at the concrete state s0. -/
theorem C1_queue_advances_witness :
    (mdm_command s0 "d1" none none 1).1 = CommandResponse.commandBody cA ∧
    (mdm_command (mdm_command s0 "d1" none none 1).2 "d1" none none 2).1 =
      CommandResponse.commandBody cB ∧
    pendingOf (mdm_command (mdm_command s0 "d1" none none 1).2 "d1" none none 2).2 "d1" = [] :=
  C1_queue_advances s0 "d1" 1 2 cA cB [] (by decide)

/-! ### Claim C2 -/

/-- Claim C2 (confirmed): starting from any state where device d is
registered and has an empty queue, enqueueing any sequence of command
bodies via `send_command` and then performing one command-channel
exchange per command delivers exactly the enqueued commands, in strict
FIFO enqueue order (the bodies come back in the order they were
enqueued). -/
theorem C2_fifo (s : ServerState) (d : String) (bs : List CommandBody) (now : Nat)
    (hreg : (alookup d s.enrolled_devices).isSome = true)
    (hempty : pendingOf s d = []) :
    (deliverAll d now bs.length (enqueueAll d bs s)).1 =
      (mkCmds s.uuidCounter bs).map CommandResponse.commandBody ∧
    (mkCmds s.uuidCounter bs).map MDMCommand.command = bs := by
  have he := enqueueAll_spec d bs s hreg
  have hp : pendingOf (enqueueAll d bs s) d = mkCmds s.uuidCounter bs := by
    rw [he.2, hempty]
    simp
  have hdel := deliverAll_spec d now (mkCmds s.uuidCounter bs) (enqueueAll d bs s) hp
  rw [mkCmds_length] at hdel
  exact ⟨hdel, mkCmds_bodies s.uuidCounter bs⟩

/-- Witness for C2_fifo: two commands enqueued on the registered device
d1 come back in enqueue order. -/
theorem C2_fifo_witness :
    ((deliverAll "d1" 7 [bodyX, bodyY].length (enqueueAll "d1" [bodyX, bodyY] sReg)).1 =
      (mkCmds sReg.uuidCounter [bodyX, bodyY]).map CommandResponse.commandBody ∧
    (mkCmds sReg.uuidCounter [bodyX, bodyY]).map MDMCommand.command = [bodyX, bodyY]) :=
  C2_fifo sReg "d1" [bodyX, bodyY] 7 (by decide) (by decide)

/-! ### Claim C5 -/

/-- Claim C5, as stated, is false on the code: after cA (CommandUUID
cmd-0) is delivered to d1, the server keeps no record of cA at all (the
pop at delivery time discarded it), and an exchange reporting
Status=Acknowledged or Status=Error with the matching CommandUUID cmd-0
produces exactly the same response and state as an exchange carrying no
status: no stored command transitions to Acknowledged or Failed. -/
theorem C5_counterexample :
    (mdm_command s0 "d1" none none 1).1 = CommandResponse.commandBody cA ∧
    sDel.pending_commands = [("d1", [cB])] ∧
    mdm_command sDel "d1" (some "Acknowledged") (some "cmd-0") 2 =
      mdm_command sDel "d1" none none 2 ∧
    mdm_command sDel "d1" (some "Error") (some "cmd-0") 2 =
      mdm_command sDel "d1" none none 2 := by decide

/-- Claim C5 amended: the Status and CommandUUID of a command-channel
exchange are only logged by the handler; the response and the resulting
server state are entirely independent of them, so no outcome is ever
recorded in server-side command state (delivered commands were already
removed from the queue when handed out). -/
theorem C5_status_ignored (s : ServerState) (d : String)
    (st cu : Option String) (now : Nat) :
    mdm_command s d st cu now = mdm_command s d none none now := rfl

/-! ### Claim C3 -/

/-- Claim C3, as stated, is false on the code: a CheckOut for d1 removes
the registry entry but the command queue is not purged — cA and cB are
still stored under d1 afterwards (main.py 133-138 only deletes from
enrolled_devices). -/
theorem C3_counterexample :
    (mdm_checkin s0 (.checkOut "d1") 1).1 = 200 ∧
    alookup "d1" sOut.enrolled_devices = none ∧
    pendingOf sOut "d1" = [cA, cB] := by decide

/-- Claim C3 amended: a CheckOut check-in removes the device from the
registry, but the device's command queue is left untouched — previously
queued commands remain stored. -/
theorem C3_checkout_no_purge (s : ServerState) (d : String) (now : Nat)
    (hnd : keysNodup s.enrolled_devices) :
    alookup d (mdm_checkin s (.checkOut d) now).2.enrolled_devices = none ∧
    (mdm_checkin s (.checkOut d) now).2.pending_commands = s.pending_commands := by
  exact ⟨alookup_aerase_nodup d s.enrolled_devices hnd, rfl⟩

/-- Witness for C3_checkout_no_purge at the concrete state s0. -/
theorem C3_checkout_no_purge_witness :
    alookup "d1" (mdm_checkin s0 (.checkOut "d1") 1).2.enrolled_devices = none ∧
    (mdm_checkin s0 (.checkOut "d1") 1).2.pending_commands = s0.pending_commands :=
  C3_checkout_no_purge s0 "d1" 1 (by decide)

/-! ### Claim C4 -/

/-- Claim C4, as stated, is false on the code: after a CheckOut for d1,
a command-channel exchange still delivers the leftover queued command cA
and pops it from the stored queue, rather than behaving as an unknown
device with no state mutation. -/
theorem C4_counterexample :
    alookup "d1" sOut.enrolled_devices = none ∧
    (mdm_command sOut "d1" none none 2).1 = CommandResponse.commandBody cA ∧
    pendingOf (mdm_command sOut "d1" none none 2).2 "d1" = [cB] := by decide

/-- Claim C4 amended: after a CheckOut (the device id absent from the
registry), a command-channel exchange leaves the registry untouched (no
last-seen update), but commands left in the queue from before the
CheckOut are still delivered: the exchange pops and returns the head of
the leftover queue. -/
theorem C4_checkout_exchange (s : ServerState) (d : String) (st cu : Option String)
    (now : Nat) (c : MDMCommand) (rest : List MDMCommand)
    (h : alookup d s.enrolled_devices = none) (hc : pendingOf s d = c :: rest) :
    (mdm_command s d st cu now).2.enrolled_devices = s.enrolled_devices ∧
    (mdm_command s d st cu now).1 = CommandResponse.commandBody c ∧
    pendingOf (mdm_command s d st cu now).2 d = rest := by
  have ht : touch_last_seen s d now = s := touch_not_enrolled s d now h
  have hp := mdm_command_pop s d st cu now c rest hc
  refine ⟨?_, hp.1, hp.2⟩
  rw [mdm_command_enrolled, ht]

/-- Witness for C4_checkout_exchange at the post-CheckOut state sOut. -/
theorem C4_checkout_exchange_witness :
    (mdm_command sOut "d1" (some "Idle") none 2).2.enrolled_devices = sOut.enrolled_devices ∧
    (mdm_command sOut "d1" (some "Idle") none 2).1 = CommandResponse.commandBody cA ∧
    pendingOf (mdm_command sOut "d1" (some "Idle") none 2).2 "d1" = [cB] :=
  C4_checkout_exchange sOut "d1" (some "Idle") none 2 cA [cB] (by decide) (by decide)

/-! ### Claim C6 -/

/-- Claim C6 (confirmed): the management-API enqueue path raises a 404
not-found exactly when the device id is not registered, and in that case
the error is raised before any mutation: the returned error state is the
input state itself, so the command queue is unchanged and no command
identifier is generated (the uuid counter is untouched). -/
theorem C6_enqueue_unknown_device (s : ServerState) (d : String) (b : CommandBody)
    (t : PushResult) :
    (isErr (send_command s d b t) = true ↔ alookup d s.enrolled_devices = none) ∧
    (alookup d s.enrolled_devices = none → send_command s d b t = .error (404, s)) := by
  cases hx : alookup d s.enrolled_devices with
  | none =>
    have herr : send_command s d b t = .error (404, s) := by
      simp [send_command, hx]
    exact ⟨by rw [herr]; simp [isErr], fun _ => herr⟩
  | some dev =>
    have hok := send_command_ok s d b t dev hx
    constructor
    · rw [hok]
      simp [isErr]
    · intro hnone
      exact Option.noConfusion hnone

/-- Witness for C6_enqueue_unknown_device: enqueueing for an id absent
from the empty registry raises 404 with the state unchanged. -/
theorem C6_enqueue_unknown_device_witness :
    send_command initialState "ghost" bodyX .exn = .error (404, initialState) :=
  (C6_enqueue_unknown_device initialState "ghost" bodyX .exn).2 (by decide)

/-! ### Claim C7 -/

/-- Claim C7, as stated, is false on the code: for the existing device
d2 (lost mode on, enrolled at time 5), a TokenUpdate at time 9 assigns a
whole fresh record, so the enrollment timestamp becomes 9 and the
lost-mode flag/message/phone are reset — not preserved. -/
theorem C7_counterexample :
    devLost.lost_mode_enabled = true ∧
    devLost.enrolled_at = 5 ∧
    alookup "d2" (mdm_checkin sLost
        (.tokenUpdate "d2" (some "cc33") (some "magic3") none) 9).2.enrolled_devices =
      some devNew ∧
    devNew.lost_mode_enabled = false ∧
    devNew.enrolled_at = 9 := by decide

/-- Claim C7 amended: processing a TokenUpdate for an existing device
replaces the entire registry record: token, push-magic, unlock-token and
last-seen are set from the message, and in addition the enrollment
timestamp is reset to now and the lost-mode flag/message/phone are
cleared.  Entries of other devices and the command queue are unchanged. -/
theorem C7_token_update_replaces (s : ServerState) (u : String)
    (tok magic unlock : Option String) (now : Nat) :
    alookup u (mdm_checkin s (.tokenUpdate u tok magic unlock) now).2.enrolled_devices =
      some { udid := u
             token := tok
             push_magic := magic
             unlock_token := unlock
             enrolled_at := now
             last_seen := now
             lost_mode_enabled := false
             lost_mode_message := none
             lost_mode_phone := none } ∧
    (∀ k, k ≠ u → alookup k
        (mdm_checkin s (.tokenUpdate u tok magic unlock) now).2.enrolled_devices =
      alookup k s.enrolled_devices) ∧
    (mdm_checkin s (.tokenUpdate u tok magic unlock) now).2.pending_commands =
      s.pending_commands := by
  refine ⟨?_, ?_, rfl⟩
  · simp [mdm_checkin, alookup_aset]
  · intro k hk
    simp only [mdm_checkin]
    rw [alookup_aset]
    exact if_neg fun h => hk h.symm

/-- Witness for C7_token_update_replaces: a TokenUpdate for d2 leaves
the unrelated entry d1 of s0 unchanged. -/
theorem C7_token_update_replaces_witness :
    alookup "d1" (mdm_checkin s0
        (.tokenUpdate "d2" (some "cc33") (some "magic3") none) 9).2.enrolled_devices =
      alookup "d1" s0.enrolled_devices :=
  (C7_token_update_replaces s0 "d2" (some "cc33") (some "magic3") none 9).2.1 "d1" (by decide)

/-! ### Claim C8 -/

/-- Claim C8 (confirmed): when the push transport raises or reports an
unsuccessful delivery, `send_command` still returns normally (no
exception): the result is the queued outcome with apns_sent = false, and
the enqueued command sits at the tail of the device's pending queue in
the resulting state. -/
theorem C8_push_failure (s : ServerState) (d : String) (b : CommandBody) (t : PushResult)
    (hreg : (alookup d s.enrolled_devices).isSome = true)
    (hfail : t ≠ PushResult.response true) :
    okResult (send_command s d b t) = some
      { status := "queued"
        command_uuid := freshUuid s.uuidCounter
        apns_sent := false } ∧
    pendingOf (stateAfter (send_command s d b t)) d =
      pendingOf s d ++ [{ commandUUID := freshUuid s.uuidCounter, command := b }] := by
  obtain ⟨dev, hdev⟩ := Option.isSome_iff_exists.mp hreg
  have hok := send_command_ok s d b t dev hdev
  have hap : send_apns_notification t = false := by
    cases t with
    | exn => rfl
    | response bb =>
      cases bb with
      | false => rfl
      | true => exact absurd rfl hfail
  rw [hap] at hok
  rw [hok]
  exact ⟨rfl, by simp [stateAfter, pendingOf, alookup_aset]⟩

/-- Witness for C8_push_failure: a push exception on the registered
device d1 yields apns_sent = false with the command queued. -/
theorem C8_push_failure_witness :
    okResult (send_command sReg "d1" bodyX .exn) = some
      { status := "queued"
        command_uuid := freshUuid sReg.uuidCounter
        apns_sent := false } ∧
    pendingOf (stateAfter (send_command sReg "d1" bodyX .exn)) "d1" =
      pendingOf sReg "d1" ++ [{ commandUUID := freshUuid sReg.uuidCounter, command := bodyX }] :=
  C8_push_failure sReg "d1" bodyX .exn (by decide) (by decide)

/-! ### Claim C10 -/

/-- Claim C10 (confirmed): disabling lost mode for a registered device
whose lost-mode flag is off raises a 400 client error before any
mutation: the error carries the input state itself, so the registry
entry, the command queue, the uuid counter (no DisableLostMode command
id generated) and the push-call count (no wake dispatched) are all
unchanged. -/
theorem C10_disable_lost_mode_guard (s : ServerState) (d : String) (t : PushResult)
    (dev : Device) (hdev : alookup d s.enrolled_devices = some dev)
    (hoff : dev.lost_mode_enabled = false) :
    disable_lost_mode s d t = .error (400, s) := by
  simp [disable_lost_mode, hdev, hoff]

/-- Witness for C10_disable_lost_mode_guard at the concrete state s0
(device d1 registered, lost mode off). -/
theorem C10_disable_lost_mode_guard_witness :
    disable_lost_mode s0 "d1" (.response true) = .error (400, s0) :=
  C10_disable_lost_mode_guard s0 "d1" (.response true) dev0 (by decide) (by decide)

/-! ### Registry-membership lemmas for the reachability invariant -/

theorem aset_isSome {α : Type} (u k : String) (v : α) (l : List (String × α))
    (h : (alookup k (aset u v l)).isSome = true) :
    u = k ∨ (alookup k l).isSome = true := by
  rw [alookup_aset] at h
  by_cases he : u = k
  · exact Or.inl he
  · rw [if_neg he] at h
    exact Or.inr h

theorem send_command_enrolled (s : ServerState) (d : String) (b : CommandBody)
    (t : PushResult) :
    (stateAfter (send_command s d b t)).enrolled_devices = s.enrolled_devices := by
  cases hx : alookup d s.enrolled_devices with
  | none =>
    simp [send_command, hx, stateAfter]
  | some dev =>
    rw [send_command_ok s d b t dev hx]
    rfl

theorem touch_mem (s : ServerState) (d u : String) (now : Nat)
    (h : (alookup u (touch_last_seen s d now).enrolled_devices).isSome = true) :
    (alookup u s.enrolled_devices).isSome = true := by
  cases hx : alookup d s.enrolled_devices with
  | none =>
    rw [touch_not_enrolled s d now hx] at h
    exact h
  | some dev =>
    simp only [touch_last_seen, hx] at h
    rcases aset_isSome d u _ _ h with he | hm
    · subst he
      simp [hx]
    · exact hm

theorem enable_lost_mem (s : ServerState) (d u m p : String) (f : Option String)
    (t : PushResult)
    (h : (alookup u (stateAfter (enable_lost_mode s d m p f t)).enrolled_devices).isSome
      = true) :
    (alookup u s.enrolled_devices).isSome = true := by
  cases hx : alookup d s.enrolled_devices with
  | none =>
    simp only [enable_lost_mode, hx, stateAfter] at h
    exact h
  | some dev =>
    simp only [enable_lost_mode, hx] at h
    rw [send_command_enrolled] at h
    simp only [] at h
    rcases aset_isSome d u _ _ h with he | hm
    · subst he
      simp [hx]
    · exact hm

theorem disable_lost_mem (s : ServerState) (d u : String) (t : PushResult)
    (h : (alookup u (stateAfter (disable_lost_mode s d t)).enrolled_devices).isSome
      = true) :
    (alookup u s.enrolled_devices).isSome = true := by
  cases hx : alookup d s.enrolled_devices with
  | none =>
    simp only [disable_lost_mode, hx, stateAfter] at h
    exact h
  | some dev =>
    by_cases hlm : dev.lost_mode_enabled = false
    · simp only [disable_lost_mode, hx, if_pos hlm, stateAfter] at h
      exact h
    · simp only [disable_lost_mode, hx, if_neg hlm] at h
      rw [send_command_enrolled] at h
      simp only [] at h
      rcases aset_isSome d u _ _ h with he | hm
      · subst he
        simp [hx]
      · exact hm

theorem unenroll_enrolled (s : ServerState) (d : String) (t : PushResult) :
    (stateAfter (unenroll_device s d t)).enrolled_devices = s.enrolled_devices := by
  unfold unenroll_device
  cases hx : alookup d s.enrolled_devices with
  | none => rfl
  | some dev =>
    have hs := send_command_enrolled s d
      { requestType := "RemoveProfile", args := [("Identifier", "com.yourorg.mdm")] } t
    cases hsc : send_command s d
        { requestType := "RemoveProfile", args := [("Identifier", "com.yourorg.mdm")] } t with
    | ok r =>
      obtain ⟨r1, s1⟩ := r
      rw [hsc] at hs
      exact hs
    | error e =>
      obtain ⟨n1, s1⟩ := e
      rw [hsc] at hs
      exact hs

theorem step_registry (op : Op) (s : ServerState) (u : String)
    (h : (alookup u (step s op).enrolled_devices).isSome = true) :
    (alookup u s.enrolled_devices).isSome = true ∨ isTokenUpdateFor u op = true := by
  cases op with
  | checkin msg now =>
    cases msg with
    | authenticate x => exact Or.inl h
    | tokenUpdate x tok mg ul =>
      simp only [step, mdm_checkin] at h
      rcases aset_isSome x u _ _ h with he | hm
      · subst he
        exact Or.inr (by simp [isTokenUpdateFor])
      · exact Or.inl hm
    | checkOut x =>
      simp only [step, mdm_checkin] at h
      exact Or.inl (alookup_aerase_isSome x u _ h)
    | unknown => exact Or.inl h
  | command d st cu now =>
    simp only [step] at h
    rw [mdm_command_enrolled] at h
    exact Or.inl (touch_mem s d u now h)
  | send d b t =>
    simp only [step] at h
    rw [send_command_enrolled] at h
    exact Or.inl h
  | enableLost d m p f t =>
    simp only [step] at h
    exact Or.inl (enable_lost_mem s d u m p f t h)
  | disableLost d t =>
    simp only [step] at h
    exact Or.inl (disable_lost_mem s d u t h)
  | unenroll d t =>
    simp only [step] at h
    rw [unenroll_enrolled] at h
    exact Or.inl h

theorem run_registry (ops : List Op) : ∀ (s : ServerState) (u : String),
    (alookup u (run s ops).enrolled_devices).isSome = true →
    (alookup u s.enrolled_devices).isSome = true ∨ ops.any (isTokenUpdateFor u) = true := by
  induction ops with
  | nil =>
    intro s u h
    exact Or.inl h
  | cons op rest ih =>
    intro s u h
    rcases ih (step s op) u h with hmem | hany
    · rcases step_registry op s u hmem with hmem2 | htok
      · exact Or.inl hmem2
      · exact Or.inr (by simp [htok])
    · exact Or.inr (by simp [hany])

/-! ### Claim C9 -/

/-- Claim C9 (confirmed): processing an Authenticate message returns 200
and leaves the whole server state unchanged (it never creates or
modifies a registry entry), and over any sequence of operations starting
from the empty initial state, a device id is present in the registry
only if a TokenUpdate check-in for that id occurred in the sequence.
(Every registry entry carries the token/push-magic/unlock-token fields,
since the only write path is the TokenUpdate record assignment.) -/
theorem C9_registry_only_token_update :
    (∀ (s : ServerState) (u : String) (now : Nat),
      mdm_checkin s (.authenticate u) now = (200, s)) ∧
    (∀ (ops : List Op) (u : String),
      (alookup u (run initialState ops).enrolled_devices).isSome = true →
      ops.any (isTokenUpdateFor u) = true) := by
  constructor
  · intro s u now
    rfl
  · intro ops u h
    rcases run_registry ops initialState u h with hmem | hany
    · simp [initialState, alookup] at hmem
    · exact hany

/-- Witness for C9_registry_only_token_update: an Authenticate no-op on
sReg, and a one-operation run whose registered device d9 indeed has a
TokenUpdate in the operation list. -/
theorem C9_registry_only_token_update_witness :
    mdm_checkin sReg (.authenticate "d1") 3 = (200, sReg) ∧
    [Op.checkin (.tokenUpdate "d9" (some "tt") (some "mm") none) 4].any
      (isTokenUpdateFor "d9") = true :=
  ⟨C9_registry_only_token_update.1 sReg "d1" 3,
   C9_registry_only_token_update.2
     [Op.checkin (.tokenUpdate "d9" (some "tt") (some "mm") none) 4] "d9" (by decide)⟩
